import Mathlib

/-!
Shallow embedding of `src/tools/server_tray.py` (711BF Gaming server tray
supervisor).  The `ServerManager` class becomes a record of its mutable
fields; OS effects (process liveness, `subprocess.Popen`, `terminate`,
the powershell sweep commands, `time.sleep`) are mediated by an `Env`
oracle; each operation returns the updated state together with a trace of
observable events (notifications, icon updates, launches, terminations,
sweep invocations, sleeps, log prints), in source order.
-/

/-- Observable events emitted by the supervisor, in the order the Python
code performs them.  `notif t m s` is `self.notify(t, m, success=s)`;
`icon c` is `self.update_icon(c)`; `sweep n` is one powershell
`Stop-Process` invocation targeting image name `n`; `launch r p` is a
successful `subprocess.Popen` for role `r` yielding OS process `p`;
`terminate p` is a `Popen.terminate()` call on process `p`; `sleepEv d`
is `time.sleep(d)`; `log m` is a `print` on an error path. -/
inductive Event where
  | notif (title msg : String) (success : Bool)
  | icon (color : String)
  | sweep (name : String)
  | launch (role : String) (pid : Nat)
  | terminate (pid : Nat)
  | sleepEv (duration : Nat)
  | log (msg : String)
deriving DecidableEq, Repr

/-- The mutable state of `ServerManager` relevant to supervision:
`colyseus_process` (Primary), `http_process` (Asset), `traefik_process`
(Proxy) are the nullable process handles (modelled as optional OS pids);
`running` is the intent flag; `traefik_enabled` is the proxy toggle.
The `icon` and `control_server` fields of the Python class are UI
plumbing with no supervision state and are not modelled. -/
structure ServerManager where
  colyseus_process : Option Nat
  http_process : Option Nat
  traefik_process : Option Nat
  running : Bool
  traefik_enabled : Bool
deriving DecidableEq, Repr

/-- `ServerManager.__init__`: all handles `None`, `running = False`,
`traefik_enabled = True`. -/
def ServerManager.mk0 : ServerManager :=
  { colyseus_process := none
    http_process := none
    traefik_process := none
    running := false
    traefik_enabled := true }

/-- Environment oracle for OS effects during one operation.
`alive p` is `poll() is None` for process `p`; `runRaises n` is
`some e` when the powershell sweep command for image name `n` raises
exception `e` (and `none` when it completes); `colyseusLaunch`,
`httpLaunch`, `traefikLaunch` are the results of the three
`subprocess.Popen` calls (`.error e` = the call raises `e`);
`traefikExeExists` is `TRAEFIK_EXE.exists()`; `terminateRaises p` is
`some e` when `terminate()` on process `p` raises `e`; `pause i` gives
the duration of the `i`-th fixed `time.sleep` site. -/
structure Env where
  alive : Nat → Bool
  runRaises : String → Option String
  colyseusLaunch : Except String Nat
  httpLaunch : Except String Nat
  traefikLaunch : Except String Nat
  traefikExeExists : Bool
  terminateRaises : Nat → Option String
  pause : Nat → Nat

/-- `ServerManager.is_process_running`: `False` if the handle is `None`,
otherwise whether `poll()` reports the process still alive. -/
def is_process_running (alive : Nat → Bool) : Option Nat → Bool
  | none => false
  | some p => alive p

/-- `ServerManager.get_status`: `("running", "green")` when both the
Colyseus and HTTP handles are alive, `("partial", "yellow")` when at
least one (hence exactly one) is, `("stopped", "red")` otherwise.  The
traefik handle is never consulted. -/
def get_status (alive : Nat → Bool) (m : ServerManager) : String × String :=
  if is_process_running alive m.colyseus_process && is_process_running alive m.http_process then
    ("running", "green")
  else if is_process_running alive m.colyseus_process || is_process_running alive m.http_process then
    ("partial", "yellow")
  else
    ("stopped", "red")

/-- `ServerManager.kill_existing_processes`: runs the node sweep, the
python sweep, the traefik sweep (when `include_traefik`), then
`time.sleep(1)` (pause site 0), all inside one `try`; the first command
that raises jumps to the `except`, which prints the error and returns
normally, skipping the remaining commands and the sleep. -/
def kill_existing_processes (env : Env) (include_traefik : Bool) : List Event :=
  match env.runRaises "node" with
  | some e => [.sweep "node", .log ("Error killing processes: " ++ e)]
  | none =>
    match env.runRaises "python" with
    | some e => [.sweep "node", .sweep "python", .log ("Error killing processes: " ++ e)]
    | none =>
      if include_traefik then
        match env.runRaises "traefik" with
        | some e =>
          [.sweep "node", .sweep "python", .sweep "traefik",
           .log ("Error killing processes: " ++ e)]
        | none =>
          [.sweep "node", .sweep "python", .sweep "traefik", .sleepEv (env.pause 0)]
      else
        [.sweep "node", .sweep "python", .sleepEv (env.pause 0)]

/-- Success-notification body when traefik was launched. -/
def startedMsgHttps : String :=
  "HTTPS: https://game.711bf.org\nLocal: http://localhost:3000"

/-- Success-notification body when traefik was not launched. -/
def startedMsgLocal : String :=
  "Game client: http://localhost:3000\nColyseus: ws://localhost:2567"

/-- `ServerManager.start_servers`: early return with an "Already
Running" notification when `running`; otherwise notify, icon yellow,
sweep, then inside `try`: launch Colyseus (sleep site 1), launch the
HTTP server (sleep site 2), launch traefik when `traefik_enabled and
TRAEFIK_EXE.exists()` (sleep site 3), set `running = True`, icon green,
and notify success with endpoints chosen by re-testing the same traefik
condition.  Any `Popen` exception jumps to `except`: icon red, "Start
Failed" notification, handles already assigned stay assigned. -/
def start_servers (env : Env) (m : ServerManager) : ServerManager × List Event :=
  if m.running then
    (m, [.notif "Already Running" "Servers are already running" false])
  else
    let pre : List Event :=
      .notif "Starting Servers" "Initializing game servers..." true ::
        .icon "yellow" :: kill_existing_processes env true
    match env.colyseusLaunch with
    | .error e => (m, pre ++ [.icon "red", .notif "Start Failed" e false])
    | .ok cp =>
      let m1 := { m with colyseus_process := some cp }
      let ev1 := pre ++ [.launch "colyseus" cp, .sleepEv (env.pause 1)]
      match env.httpLaunch with
      | .error e => (m1, ev1 ++ [.icon "red", .notif "Start Failed" e false])
      | .ok hp =>
        let m2 := { m1 with http_process := some hp }
        let ev2 := ev1 ++ [.launch "http" hp, .sleepEv (env.pause 2)]
        if m2.traefik_enabled && env.traefikExeExists then
          match env.traefikLaunch with
          | .error e => (m2, ev2 ++ [.icon "red", .notif "Start Failed" e false])
          | .ok tp =>
            ({ m2 with traefik_process := some tp, running := true },
             ev2 ++ [.launch "traefik" tp, .sleepEv (env.pause 3), .icon "green",
                     .notif "Servers Started" startedMsgHttps true])
        else
          ({ m2 with running := true },
           ev2 ++ [.icon "green", .notif "Servers Started" startedMsgLocal true])

/-- Tail of `stop_servers` after the three terminate attempts succeeded:
orphan sweep (all three names), `running = False`, icon red, success
notification. -/
def stopFinish (env : Env) (m : ServerManager) (ev : List Event) : ServerManager × List Event :=
  ({ m with running := false },
   ev ++ kill_existing_processes env true ++
     [.icon "red", .notif "Servers Stopped" "All game servers have been stopped" true])

/-- The traefik clause of the `try` block of `stop_servers`: terminate
the tracked traefik handle if any; a raise jumps to the `except` (one
"Stop Failed" notification, nothing further). -/
def stopTraefik (env : Env) (m : ServerManager) (ev : List Event) : ServerManager × List Event :=
  match m.traefik_process with
  | none => stopFinish env m ev
  | some p =>
    match env.terminateRaises p with
    | some e => (m, ev ++ [.terminate p, .notif "Stop Failed" e false])
    | none => stopFinish env { m with traefik_process := none } (ev ++ [.terminate p])

/-- The http clause of the `try` block of `stop_servers`. -/
def stopHttp (env : Env) (m : ServerManager) (ev : List Event) : ServerManager × List Event :=
  match m.http_process with
  | none => stopTraefik env m ev
  | some p =>
    match env.terminateRaises p with
    | some e => (m, ev ++ [.terminate p, .notif "Stop Failed" e false])
    | none => stopTraefik env { m with http_process := none } (ev ++ [.terminate p])

/-- `ServerManager.stop_servers`: early return with an "Already
Stopped" notification when not `running`; otherwise notify, icon
yellow, then one `try` around: terminate Colyseus, terminate http,
terminate traefik (each clearing its handle after a successful call),
orphan sweep, `running = False`, icon red, success notification.  The
single `except` emits one "Stop Failed" notification and returns. -/
def stop_servers (env : Env) (m : ServerManager) : ServerManager × List Event :=
  if m.running then
    let ev0 : List Event :=
      [.notif "Stopping Servers" "Shutting down game servers..." true, .icon "yellow"]
    match m.colyseus_process with
    | none => stopHttp env m ev0
    | some p =>
      match env.terminateRaises p with
      | some e => (m, ev0 ++ [.terminate p, .notif "Stop Failed" e false])
      | none => stopHttp env { m with colyseus_process := none } (ev0 ++ [.terminate p])
  else
    (m, [.notif "Already Stopped" "Servers are not running" false])

/-- `ServerManager.restart_servers`: notify "Restarting Servers", call
`stop_servers`, `time.sleep(2)` (pause site 4), call `start_servers`. -/
def restart_servers (env : Env) (m : ServerManager) : ServerManager × List Event :=
  let s := stop_servers env m
  let s2 := start_servers env s.1
  (s2.1,
   .notif "Restarting Servers" "Restarting game servers..." true ::
     s.2 ++ .sleepEv (env.pause 4) :: s2.2)

/-- `ServerManager.toggle_traefik`: flips `traefik_enabled` and sends
one notification describing the new value. -/
def toggle_traefik (m : ServerManager) : ServerManager × List Event :=
  let m1 := { m with traefik_enabled := !m.traefik_enabled }
  (m1,
   [.notif "Traefik Toggle"
      ("Traefik is now " ++ (if m1.traefik_enabled then "enabled" else "disabled") ++
        ". Restart servers to apply.") true])

/-- JSON bodies produced by `ControlHandler.send_json`. -/
inductive RespBody where
  | statusBody (status : String) (running traefik_enabled traefik_running : Bool)
  | actionBody (action message : String)
  | errorBody (error : String) (endpoints : List String)
deriving DecidableEq, Repr

/-- One HTTP response: status code plus JSON body. -/
structure HttpResp where
  code : Nat
  body : RespBody
deriving DecidableEq, Repr

/-- The four routes `ControlHandler.do_GET` recognises. -/
def validRoutes : List String := ["/status", "/start", "/stop", "/restart"]

/-- `ControlHandler.do_GET`: `/status` answers 200 with the current
status snapshot; `/start`, `/stop`, `/restart` spawn the corresponding
manager operation on a background thread (returned as the second
component) and answer 200 immediately; every other path answers 404
with the list of valid endpoints.  Total: no path crashes the
handler. -/
def do_GET (env : Env) (m : ServerManager) (path : String) : HttpResp × Option String :=
  if path = "/status" then
    (⟨200, .statusBody (get_status env.alive m).1 m.running m.traefik_enabled
        (is_process_running env.alive m.traefik_process)⟩, none)
  else if path = "/start" then
    (⟨200, .actionBody "start" "Starting servers..."⟩, some "start")
  else if path = "/stop" then
    (⟨200, .actionBody "stop" "Stopping servers..."⟩, some "stop")
  else if path = "/restart" then
    (⟨200, .actionBody "restart" "Restarting servers..."⟩, some "restart")
  else
    (⟨404, .errorBody "Unknown endpoint" validRoutes⟩, none)

/-- A benign environment: no process alive, no command raises, the three
launches yield pids 1, 2, 3, the traefik binary is present, every pause
lasts 1. -/
def env0 : Env :=
  { alive := fun _ => false
    runRaises := fun _ => none
    colyseusLaunch := .ok 1
    httpLaunch := .ok 2
    traefikLaunch := .ok 3
    traefikExeExists := true
    terminateRaises := fun _ => none
    pause := fun _ => 1 }

/-- A supervisor state with the intent flag set and no tracked handles. -/
def mRun : ServerManager := { ServerManager.mk0 with running := true }

/-- A running supervisor tracking all three handles (pids 1, 2, 3). -/
def mUp : ServerManager :=
  { colyseus_process := some 1
    http_process := some 2
    traefik_process := some 3
    running := true
    traefik_enabled := true }

/-- A stopped-state supervisor still tracking a stale Primary handle. -/
def mStale : ServerManager :=
  { colyseus_process := some 7
    http_process := none
    traefik_process := none
    running := false
    traefik_enabled := true }

/-- `env0` except every process is reported alive. -/
def envAllAlive : Env := { env0 with alive := fun _ => true }

/-- `env0` except `terminate()` on pid 1 raises "boom". -/
def envTermFail : Env :=
  { env0 with terminateRaises := fun p => if p = 1 then some "boom" else none }

/-- `env0` except the node sweep command raises "powershell gone". -/
def envSweepFail : Env :=
  { env0 with runRaises := fun s => if s = "node" then some "powershell gone" else none }

/-- `env0` except the http-server launch raises "spawn failed". -/
def envHttpFail : Env := { env0 with httpLaunch := .error "spawn failed" }

/-- Whether `terminate()` on a tracked handle would raise: `false` for an
empty handle, otherwise whether the environment makes that pid's
terminate call raise. -/
def terminateFails (env : Env) : Option Nat → Bool
  | none => false
  | some p => (env.terminateRaises p).isSome

/-- Whether the `try` block of `stop_servers` aborts: true iff one of
the sequentially attempted terminate calls raises (the first failing one
jumps to the `except`). -/
def stopAborts (env : Env) (m : ServerManager) : Bool :=
  terminateFails env m.colyseus_process || terminateFails env m.http_process ||
    terminateFails env m.traefik_process

/-- C1: `get_status` returns "running" iff both the Primary (colyseus)
and Asset (http) handles are alive, "partial" iff exactly one of them is
alive, "stopped" iff neither is; the traefik handle never influences the
result. -/
theorem get_status_tristate (alive : Nat → Bool) (m : ServerManager) :
    ((get_status alive m).1 = "running" ↔
      is_process_running alive m.colyseus_process = true ∧
        is_process_running alive m.http_process = true) ∧
    ((get_status alive m).1 = "partial" ↔
      ((is_process_running alive m.colyseus_process = true ∧
          is_process_running alive m.http_process = false) ∨
        (is_process_running alive m.colyseus_process = false ∧
          is_process_running alive m.http_process = true))) ∧
    ((get_status alive m).1 = "stopped" ↔
      is_process_running alive m.colyseus_process = false ∧
        is_process_running alive m.http_process = false) ∧
    ∀ t, get_status alive { m with traefik_process := t } = get_status alive m := by
  cases hc : is_process_running alive m.colyseus_process <;>
    cases hh : is_process_running alive m.http_process <;>
      simp [get_status, hc, hh]

/-- C10: a freshly constructed supervisor has `running = false`, all
three handles empty (so `get_status` reports "stopped" and the traefik
handle is not alive), and `traefik_enabled = true`. -/
theorem mk0_defaults :
    ServerManager.mk0.running = false ∧
    ServerManager.mk0.colyseus_process = none ∧
    ServerManager.mk0.http_process = none ∧
    ServerManager.mk0.traefik_process = none ∧
    ServerManager.mk0.traefik_enabled = true ∧
    ∀ alive : Nat → Bool,
      (get_status alive ServerManager.mk0).1 = "stopped" ∧
        is_process_running alive ServerManager.mk0.traefik_process = false :=
  ⟨rfl, rfl, rfl, rfl, rfl, fun _ => ⟨rfl, rfl⟩⟩

/-- C7: `toggle_traefik` negates `traefik_enabled` and changes nothing
else: `running`, all three handles, the reported status, and traefik
liveness are preserved, and its trace contains no launch and no
terminate event. -/
theorem toggle_traefik_frame (alive : Nat → Bool) (m : ServerManager) :
    (toggle_traefik m).1.traefik_enabled = !m.traefik_enabled ∧
    (toggle_traefik m).1.running = m.running ∧
    (toggle_traefik m).1.colyseus_process = m.colyseus_process ∧
    (toggle_traefik m).1.http_process = m.http_process ∧
    (toggle_traefik m).1.traefik_process = m.traefik_process ∧
    get_status alive (toggle_traefik m).1 = get_status alive m ∧
    is_process_running alive (toggle_traefik m).1.traefik_process =
      is_process_running alive m.traefik_process ∧
    ∀ e ∈ (toggle_traefik m).2, (∀ r p, e ≠ .launch r p) ∧ ∀ p, e ≠ .terminate p := by
  refine ⟨rfl, rfl, rfl, rfl, rfl, ?_, rfl, ?_⟩
  · simp [get_status, toggle_traefik]
  · intro e he
    simp only [toggle_traefik, List.mem_singleton] at he
    subst he
    exact ⟨fun r p => by simp, fun p => by simp⟩

/-- C8: `restart_servers` yields the same final supervisor state as
`stop_servers` followed by `start_servers` under the same environment —
for every environment, hence for every assignment of pause durations. -/
theorem restart_eq_stop_then_start (env : Env) (m : ServerManager) :
    (restart_servers env m).1 = (start_servers env (stop_servers env m).1).1 := rfl

/-- C9: `do_GET` answers 200 exactly on the four valid routes and 404 on
every other path, with a 404 body listing exactly those four routes; it
is a total function of the path, so no request crashes the listener. -/
theorem do_GET_routes (env : Env) (m : ServerManager) (path : String) :
    ((do_GET env m path).1.code = 200 ∧ path ∈ validRoutes) ∨
    ((do_GET env m path).1.code = 404 ∧
      (do_GET env m path).1.body = RespBody.errorBody "Unknown endpoint" validRoutes ∧
      path ∉ validRoutes) := by
  unfold do_GET
  split_ifs with h1 h2 h3 h4 <;> simp_all [validRoutes]

/-- C4: with `running = true`, `start_servers` returns the state
unchanged and a trace of exactly one "Already Running" notification (in
particular no launch event); with `running = false`, `stop_servers`
returns the state unchanged and exactly one "Already Stopped"
notification. -/
theorem guard_noops (env : Env) (m : ServerManager) :
    (m.running = true →
      start_servers env m =
        (m, [Event.notif "Already Running" "Servers are already running" false])) ∧
    (m.running = false →
      stop_servers env m =
        (m, [Event.notif "Already Stopped" "Servers are not running" false])) := by
  constructor
  · intro h; simp [start_servers, h]
  · intro h; simp [stop_servers, h]

/-- Witness for C4 at concrete inputs. -/
theorem guard_noops_witness :
    start_servers env0 mRun =
      (mRun, [Event.notif "Already Running" "Servers are already running" false]) ∧
    stop_servers env0 ServerManager.mk0 =
      (ServerManager.mk0, [Event.notif "Already Stopped" "Servers are not running" false]) :=
  ⟨(guard_noops env0 mRun).1 rfl, (guard_noops env0 ServerManager.mk0).2 rfl⟩

theorem launch_not_in_kill (env : Env) (b : Bool) (r : String) (p : Nat) :
    Event.launch r p ∉ kill_existing_processes env b := by
  unfold kill_existing_processes
  cases env.runRaises "node" <;> cases env.runRaises "python" <;>
    cases env.runRaises "traefik" <;> cases b <;> simp

theorem notif_not_in_kill (env : Env) (b : Bool) (t ms : String) (s : Bool) :
    Event.notif t ms s ∉ kill_existing_processes env b := by
  unfold kill_existing_processes
  cases env.runRaises "node" <;> cases env.runRaises "python" <;>
    cases env.runRaises "traefik" <;> cases b <;> simp

theorem kill_all_ok (env : Env)
    (hn : env.runRaises "node" = none) (hp : env.runRaises "python" = none)
    (ht : env.runRaises "traefik" = none) :
    kill_existing_processes env true =
      [.sweep "node", .sweep "python", .sweep "traefik", .sleepEv (env.pause 0)] := by
  unfold kill_existing_processes
  rw [hn, hp, if_pos rfl, ht]

/-- C3 counterexample: from a prior state with running = false and a
stale alive Primary handle, stop_servers is a pure no-op — the handle is
not cleared and still reports alive, no sweep is attempted (the trace is
a single "Already Stopped" notification), contradicting the claim's
"for every prior supervisor state". -/
theorem stop_stale_counterexample :
    stop_servers envAllAlive mStale =
      (mStale, [Event.notif "Already Stopped" "Servers are not running" false]) ∧
    is_process_running envAllAlive.alive
        (stop_servers envAllAlive mStale).1.colyseus_process = true :=
  ⟨rfl, rfl⟩

/-- C3 (amended): from any prior state with running = true, provided no
terminate call raises and no sweep command raises, after stop_servers
all three role handles are cleared (so under every liveness oracle every
role reports not-alive), the name-based orphan sweep has been attempted
for all three role process names, and running = false; when
running = false, stop_servers is a no-op that leaves stale handles in
place. -/
theorem stop_clears_all (env : Env) (m : ServerManager)
    (hr : m.running = true)
    (ht : ∀ p, env.terminateRaises p = none)
    (hn : env.runRaises "node" = none) (hp : env.runRaises "python" = none)
    (htr : env.runRaises "traefik" = none) :
    (stop_servers env m).1.colyseus_process = none ∧
    (stop_servers env m).1.http_process = none ∧
    (stop_servers env m).1.traefik_process = none ∧
    (stop_servers env m).1.running = false ∧
    (∀ alive : Nat → Bool,
      is_process_running alive (stop_servers env m).1.colyseus_process = false ∧
      is_process_running alive (stop_servers env m).1.http_process = false ∧
      is_process_running alive (stop_servers env m).1.traefik_process = false) ∧
    Event.sweep "node" ∈ (stop_servers env m).2 ∧
    Event.sweep "python" ∈ (stop_servers env m).2 ∧
    Event.sweep "traefik" ∈ (stop_servers env m).2 := by
  obtain ⟨c, q, t, r, te⟩ := m
  cases r
  · exact absurd hr (by simp)
  · rcases c with _ | pc <;> rcases q with _ | pq <;> rcases t with _ | pt <;>
      simp [stop_servers, stopHttp, stopTraefik, stopFinish, ht,
        kill_all_ok env hn hp htr, is_process_running]

/-- Witness for the amended C3 at concrete inputs. -/
theorem stop_clears_all_witness :
    (stop_servers env0 mUp).1.colyseus_process = none ∧
    (stop_servers env0 mUp).1.http_process = none ∧
    (stop_servers env0 mUp).1.traefik_process = none ∧
    (stop_servers env0 mUp).1.running = false ∧
    Event.sweep "node" ∈ (stop_servers env0 mUp).2 ∧
    Event.sweep "python" ∈ (stop_servers env0 mUp).2 ∧
    Event.sweep "traefik" ∈ (stop_servers env0 mUp).2 := by
  have h := stop_clears_all env0 mUp rfl (fun _ => rfl) rfl rfl rfl
  exact ⟨h.1, h.2.1, h.2.2.1, h.2.2.2.1, h.2.2.2.2.2.1, h.2.2.2.2.2.2.1, h.2.2.2.2.2.2.2⟩

/-- C2 counterexample: with all three handles tracked and terminate on
the Primary raising "boom", stop_servers swallows the error but the
other two terminations, the orphan sweep, and running = false are all
skipped: the state comes back unchanged (running still true) and the
trace contains no terminate of pids 2 or 3 and no sweep — the per-role
independence the claim asserts does not hold. -/
theorem stop_not_independent_counterexample :
    stop_servers envTermFail mUp =
      (mUp, [Event.notif "Stopping Servers" "Shutting down game servers..." true,
             Event.icon "yellow", Event.terminate 1,
             Event.notif "Stop Failed" "boom" false]) ∧
    (stop_servers envTermFail mUp).1.running = true ∧
    Event.terminate 2 ∉ (stop_servers envTermFail mUp).2 ∧
    Event.terminate 3 ∉ (stop_servers envTermFail mUp).2 ∧
    Event.sweep "node" ∉ (stop_servers envTermFail mUp).2 := by
  refine ⟨rfl, rfl, ?_, ?_, ?_⟩ <;> decide

/-- C2 (amended): during stop() with running = true, an error raised by
a terminate call is swallowed by the single handler around the whole
try block — stop_servers returns normally after a "Stop Failed"
notification — but the terminations are not independent: if the Primary
terminate raises, the state is returned entirely unchanged with no
further termination and no sweep in the trace; and in general the final
running flag is true exactly when one of the sequentially attempted
terminate calls raised (so running = false is reached iff none did). -/
theorem stop_terminate_error_swallowed (env : Env) (m : ServerManager)
    (hr : m.running = true) :
    (∀ p e, m.colyseus_process = some p → env.terminateRaises p = some e →
      stop_servers env m =
        (m, [Event.notif "Stopping Servers" "Shutting down game servers..." true,
             Event.icon "yellow", Event.terminate p,
             Event.notif "Stop Failed" e false])) ∧
    (stop_servers env m).1.running = stopAborts env m := by
  obtain ⟨c, q, t, r, te⟩ := m
  cases r
  · exact absurd hr (by simp)
  · constructor
    · intro p e hc hre
      dsimp only at hc
      subst hc
      simp [stop_servers, hre]
    · rcases c with _ | pc <;> rcases q with _ | pq <;> rcases t with _ | pt <;>
        simp only [stop_servers, stopHttp, stopTraefik, stopFinish, stopAborts,
          terminateFails, if_true] <;>
      first
        | rfl
        | (cases env.terminateRaises pc <;> cases env.terminateRaises pq <;>
            cases env.terminateRaises pt <;> simp)
        | (cases env.terminateRaises pc <;> cases env.terminateRaises pq <;> simp)
        | (cases env.terminateRaises pc <;> cases env.terminateRaises pt <;> simp)
        | (cases env.terminateRaises pq <;> cases env.terminateRaises pt <;> simp)
        | (cases env.terminateRaises pc <;> simp)
        | (cases env.terminateRaises pq <;> simp)
        | (cases env.terminateRaises pt <;> simp)

/-- Witness for the amended C2 at concrete inputs. -/
theorem stop_terminate_error_swallowed_witness :
    stop_servers envTermFail mUp =
      (mUp, [Event.notif "Stopping Servers" "Shutting down game servers..." true,
             Event.icon "yellow", Event.terminate 1,
             Event.notif "Stop Failed" "boom" false]) ∧
    (stop_servers envTermFail mUp).1.running = stopAborts envTermFail mUp :=
  ⟨(stop_terminate_error_swallowed envTermFail mUp rfl).1 1 "boom" rfl rfl,
   (stop_terminate_error_swallowed envTermFail mUp rfl).2⟩

/-- C5 counterexample: with the node sweep command raising ("powershell
gone") and every launch succeeding, start_servers from the initial state
logs the sweep error inside the sweep, proceeds with all launches, and
finishes with running = true and a success notification — not with
running left false and a failure notification as the claim requires for
an exception raised during the sweep step. -/
theorem start_sweep_error_counterexample :
    start_servers envSweepFail ServerManager.mk0 =
      ({ colyseus_process := some 1, http_process := some 2, traefik_process := some 3,
         running := true, traefik_enabled := true },
       [Event.notif "Starting Servers" "Initializing game servers..." true,
        Event.icon "yellow", Event.sweep "node",
        Event.log "Error killing processes: powershell gone",
        Event.launch "colyseus" 1, Event.sleepEv 1,
        Event.launch "http" 2, Event.sleepEv 1,
        Event.launch "traefik" 3, Event.sleepEv 1, Event.icon "green",
        Event.notif "Servers Started" startedMsgHttps true]) ∧
    (start_servers envSweepFail ServerManager.mk0).1.running = true ∧
    Event.notif "Start Failed" "powershell gone" false ∉
      (start_servers envSweepFail ServerManager.mk0).2 := by
  refine ⟨rfl, rfl, ?_⟩ ; decide

/-- C5 (amended): with running = false, an exception raised by one of
the launch steps of start_servers is caught rather than propagated:
running is left false, a "Start Failed" notification is emitted, and
handles already set by the completed launch steps keep their new values
(no rollback); an exception raised by a sweep command is swallowed
inside the sweep, so when every needed launch succeeds start_servers
still finishes with running = true. -/
theorem start_launch_error_handling (env : Env) (m : ServerManager)
    (hr : m.running = false) :
    (∀ e, env.colyseusLaunch = .error e →
      (start_servers env m).1 = m ∧
        Event.notif "Start Failed" e false ∈ (start_servers env m).2) ∧
    (∀ cp e, env.colyseusLaunch = .ok cp → env.httpLaunch = .error e →
      (start_servers env m).1 = { m with colyseus_process := some cp } ∧
        Event.notif "Start Failed" e false ∈ (start_servers env m).2) ∧
    (∀ cp hp e, env.colyseusLaunch = .ok cp → env.httpLaunch = .ok hp →
        m.traefik_enabled = true → env.traefikExeExists = true →
        env.traefikLaunch = .error e →
      (start_servers env m).1 =
          { m with colyseus_process := some cp, http_process := some hp } ∧
        Event.notif "Start Failed" e false ∈ (start_servers env m).2) ∧
    (∀ cp hp tp, env.colyseusLaunch = .ok cp → env.httpLaunch = .ok hp →
        env.traefikLaunch = .ok tp →
      (start_servers env m).1.running = true) := by
  refine ⟨?_, ?_, ?_, ?_⟩
  · intro e hce
    simp [start_servers, hr, hce]
  · intro cp e hcp hhe
    simp [start_servers, hr, hcp, hhe]
  · intro cp hp e hcp hhp hte hex hter
    simp [start_servers, hr, hcp, hhp, hte, hex, hter]
  · intro cp hp tp hcp hhp htp
    by_cases hb : m.traefik_enabled && env.traefikExeExists <;>
      simp [start_servers, hr, hcp, hhp, htp, hb]

/-- Witness for the amended C5 at concrete inputs. -/
theorem start_launch_error_handling_witness :
    (start_servers envHttpFail ServerManager.mk0).1 =
      { ServerManager.mk0 with colyseus_process := some 1 } ∧
    Event.notif "Start Failed" "spawn failed" false ∈
      (start_servers envHttpFail ServerManager.mk0).2 :=
  (start_launch_error_handling envHttpFail ServerManager.mk0 rfl).2.1 1 "spawn failed" rfl rfl

/-- C6: in a successful start_servers run (running = false, every needed
launch succeeds), the traefik process is launched iff traefik_enabled is
true and the traefik binary exists on disk, and the success
notification carries the HTTPS endpoints exactly under that same
condition and the localhost endpoints otherwise. -/
theorem traefik_launch_iff (env : Env) (m : ServerManager) (cp hp tp : Nat)
    (hr : m.running = false) (hc : env.colyseusLaunch = .ok cp)
    (hh : env.httpLaunch = .ok hp) (ht : env.traefikLaunch = .ok tp) :
    ((Event.launch "traefik" tp ∈ (start_servers env m).2) ↔
      (m.traefik_enabled = true ∧ env.traefikExeExists = true)) ∧
    ((Event.notif "Servers Started" startedMsgHttps true ∈ (start_servers env m).2) ↔
      (m.traefik_enabled = true ∧ env.traefikExeExists = true)) ∧
    ((Event.notif "Servers Started" startedMsgLocal true ∈ (start_servers env m).2) ↔
      ¬(m.traefik_enabled = true ∧ env.traefikExeExists = true)) := by
  have hku := launch_not_in_kill env true "traefik" tp
  have hkn1 := notif_not_in_kill env true "Servers Started" startedMsgHttps true
  have hkn2 := notif_not_in_kill env true "Servers Started" startedMsgLocal true
  have hmsg : startedMsgHttps ≠ startedMsgLocal := by decide
  have hmsg2 : startedMsgLocal ≠ startedMsgHttps := fun h => hmsg h.symm
  by_cases hb : m.traefik_enabled ∧ env.traefikExeExists
  · simp [start_servers, hr, hc, hh, ht, hb.1, hb.2, hku, hkn1, hkn2, hmsg, hmsg2]
  · have hb2 : (m.traefik_enabled && env.traefikExeExists) = false := by
      rcases Bool.eq_false_or_eq_true m.traefik_enabled with h1 | h1 <;>
        rcases Bool.eq_false_or_eq_true env.traefikExeExists with h2 | h2 <;>
          simp_all
    simp [start_servers, hr, hc, hh, ht, hb2, hku, hkn1, hkn2, hmsg, hmsg2, hb]

/-- Witness for C6 at concrete inputs. -/
theorem traefik_launch_iff_witness :
    Event.launch "traefik" 3 ∈ (start_servers env0 ServerManager.mk0).2 ∧
    Event.notif "Servers Started" startedMsgHttps true ∈
      (start_servers env0 ServerManager.mk0).2 :=
  ⟨(traefik_launch_iff env0 ServerManager.mk0 1 2 3 rfl rfl rfl rfl).1.mpr ⟨rfl, rfl⟩,
   (traefik_launch_iff env0 ServerManager.mk0 1 2 3 rfl rfl rfl rfl).2.1.mpr ⟨rfl, rfl⟩⟩
